import Mathlib

/-!
Shallow embedding of the SS IntelliBot Streamlit application
(`streamlit_app.py`): a retrieval-augmented chat front-end.  The pure data
flow of the app is modelled here: the per-session state (`st.session_state`),
the render-cycle of `main`, the prompt-building pipeline
(`get_chat_history`, `summarize_chat`, `build_prompt`, `query_cortex`) and
the completion wrapper (`complete`).  The two external backends (Snowflake
Cortex `Complete` and the Cortex search service) are modelled as opaque
function parameters collected in an `Env` structure, since the repository
only calls them.
-/

/-- The single-quote character, written by code point to keep string
literals free of quote characters. -/
def squote : Char := Char.ofNat 39

/-- Role tag of a chat message, the `"role"` field of the dicts stored in
`st.session_state.messages`. -/
inductive Role where
  | user
  | assistant
deriving DecidableEq, Repr

/-- One chat message: a dict with role and content, as appended by `main`
(lines 176 and 180 of `streamlit_app.py`). -/
structure Turn where
  role : Role
  content : String
deriving DecidableEq, Repr

/-- One entry of `st.session_state.service_metadata`, built by
`init_service_metadata`: the service name and its search column. -/
structure ServiceMeta where
  name : String
  search_column : String
deriving DecidableEq, Repr

/-- A search result record: a mapping from column names to text, as
returned by the Cortex search backend. -/
def Rec' : Type := List (String × String)

/-- Column access `r[search_col]` on a search result record (a missing
column is modelled as the empty string; Python would raise `KeyError`). -/
def getCol (r : Rec') (c : String) : String :=
  (((r.find? (fun p => p.1 == c)).getD (c, "")).2)

/-- The argument tuple of a call `svc.search(query, columns=..., filter=...,
limit=...)` made by `query_cortex` (line 82). -/
structure SearchCall where
  query : String
  columns : List String
  filter : List (String × String)
  limit : Nat
deriving DecidableEq, Repr

/-- The sidebar configuration widgets set by `init_config`, i.e. the
configuration keys of `st.session_state`. -/
structure Config where
  model_name : String
  num_retrieved_chunks : Nat
  num_chat_messages : Nat
  use_chat_history : Bool
  debug : Bool
  dark_mode : Bool
  selected_topic : String
  selected_cortex_search_service : String
deriving DecidableEq, Repr

/-- The external collaborators of the app, treated as opaque functions:
`Complete model prompt` is the Cortex completion backend, `search svcName
call` the Cortex search backend, and `discover` the result of the
`SHOW CORTEX SEARCH SERVICES` / `DESC` discovery performed once per session
by `init_service_metadata`. -/
structure Env where
  Complete : String → String → String
  search : String → SearchCall → List Rec'
  discover : List ServiceMeta

/-- Python `str.replace(pat, rep)` specialised to a single-character
pattern: every occurrence of `pat` is replaced by `rep`, scanning left to
right. -/
def pyReplace1 (pat : Char) (rep : List Char) : List Char → List Char
  | [] => []
  | c :: t => (if c = pat then rep else [c]) ++ pyReplace1 pat rep t

/-- The `complete` wrapper (lines 28-29): call the completion backend and
apply `.replace("$", "\$")` — a backslash is inserted before every dollar
sign of the generated text. -/
def complete (env : Env) (model prompt : String) : String :=
  String.mk (pyReplace1 '$' ['\\', '$'] (env.Complete model prompt).data)

/-- The normalization `question.replace("'", "")` applied at the call of
`build_prompt` in `main` (line 178): all single-quote characters removed. -/
def stripQuotes (s : String) : String :=
  String.mk (pyReplace1 squote [] s.data)

/-- Python list slicing `xs[a:b]` with possibly negative bounds, as used by
`get_chat_history` (line 48). -/
def pySlice {α : Type} (xs : List α) (a b : Int) : List α :=
  let L : Int := Int.ofNat xs.length
  let s : Int := if a < 0 then max (L + a) 0 else min a L
  let e : Int := if b < 0 then max (L + b) 0 else min b L
  (xs.take e.toNat).drop s.toNat

/-- `get_chat_history` (lines 47-48):
`st.session_state.messages[-num_chat_messages:-1]`. -/
def get_chat_history (msgs : List Turn) (n : Nat) : List Turn :=
  pySlice msgs (-(n : Int)) (-1)

/-- The spec description of the history window: "the last n turns excluding
the most recent one". -/
def windowed (n : Nat) (msgs : List Turn) : List Turn :=
  (msgs.drop (msgs.length - n)).dropLast

/-- `summarize_chat` (lines 50-58): ask the completion backend to extend
the question using the chat history, through the fixed `[INST]` template. -/
def summarize_chat (env : Env) (cfg : Config) (chat_history question : String) : String :=
  complete env cfg.model_name
    ("\n    [INST]\n    Extend the user question using the chat history.\n    <chat_history>"
      ++ chat_history
      ++ "</chat_history>\n    <question>"
      ++ question
      ++ "</question>\n    [/INST]\n    ")

/-- The search-column lookup of `query_cortex` (line 83): the
`search_column` of the service metadata entry whose name is the selected
service, lowercased (a missing entry is modelled as the empty string;
Python would raise `StopIteration`).  The `.lower()` call is modelled as a
character-wise lowercase map over the string contents. -/
def searchColOf (metadata : List ServiceMeta) (cfg : Config) : String :=
  String.mk ((((metadata.find? (fun s => s.name == cfg.selected_cortex_search_service)).map
      ServiceMeta.search_column).getD "").data.map Char.toLower)

/-- The snippet blocks of `query_cortex` (line 84): one block
`f"Context i+1: r[search_col]"` per result record, in backend order. -/
def contextBlocks (search_col : String) (results : List Rec') : List String :=
  results.enum.map (fun p => "Context " ++ toString (p.1 + 1) ++ ": " ++ getCol p.2 search_col)

/-- The argument tuple passed to `svc.search` by `query_cortex` (line 82):
the query, the `columns` and `filter` arguments (both defaulted to empty at
the only call site) and `limit=num_retrieved_chunks`. -/
def query_cortex_call (cfg : Config) (query : String) (columns : List String)
    (fil : List (String × String)) : SearchCall :=
  ⟨query, columns, fil, cfg.num_retrieved_chunks⟩

/-- `query_cortex` (lines 79-87): call the selected search service and join
the labeled snippet blocks with blank lines.  The Python signature defaults
are `columns=[]` and `filter` empty; the debug side effect is modelled
separately by `query_cortex_debug`. -/
def query_cortex (env : Env) (cfg : Config) (metadata : List ServiceMeta)
    (query : String) (columns : List String) (fil : List (String × String)) : String :=
  let results := env.search cfg.selected_cortex_search_service
    (query_cortex_call cfg query columns fil)
  String.intercalate "\n\n" (contextBlocks (searchColOf metadata cfg) results)

/-- The debug side effect of `query_cortex` (lines 85-86): when the debug
toggle is on, the assembled context is shown in a sidebar text area. -/
def query_cortex_debug (env : Env) (cfg : Config) (metadata : List ServiceMeta)
    (query : String) (columns : List String) (fil : List (String × String)) : Option String :=
  if cfg.debug then some (query_cortex env cfg metadata query columns fil) else none

/-- The history window used by `build_prompt` (line 61): the
`get_chat_history` slice when `use_chat_history` is on, else empty. -/
def chatWindow (cfg : Config) (msgs : List Turn) : List Turn :=
  if cfg.use_chat_history then get_chat_history msgs cfg.num_chat_messages else []

/-- The `chat_text` of `build_prompt` (line 62): the contents of the
user-role turns of the window, joined by newlines. -/
def chatText (cfg : Config) (msgs : List Turn) : String :=
  String.intercalate "\n"
    (((chatWindow cfg msgs).filter (fun m => m.role == Role.user)).map (fun m => m.content))

/-- The retrieval query of `build_prompt` (line 63): the history-aware
rewrite via `summarize_chat` when the window is non-empty, else the
question itself. -/
def retrievalQuery (env : Env) (cfg : Config) (msgs : List Turn) (question : String) : String :=
  if (chatWindow cfg msgs).isEmpty then question
  else summarize_chat env cfg (chatText cfg msgs) question

/-- The fixed instruction template of `build_prompt` (lines 65-76), with
the three interpolated holes. -/
def promptTemplate (chat_text context question : String) : String :=
  "\n    [INST]\n    You are SS IntelliBot, a helpful AI assistant with access to PDF-based knowledge.\n    Use the provided <context> and <chat_history> to answer user questions.\n    Respond clearly, briefly, and helpfully.\n\n    <chat_history>"
    ++ chat_text
    ++ "</chat_history>\n    <context>"
    ++ context
    ++ "</context>\n    <question>"
    ++ question
    ++ "</question>\n    [/INST]\n    Answer:\n    "

/-- `build_prompt` (lines 60-77): window the history, join the user-role
turn contents, rewrite the question when history is present, retrieve
context for the rewritten query, and fill the instruction template. -/
def build_prompt (env : Env) (cfg : Config) (metadata : List ServiceMeta)
    (msgs : List Turn) (question : String) : String :=
  promptTemplate (chatText cfg msgs)
    (query_cortex env cfg metadata (retrievalQuery env cfg msgs question) [] [])
    question

/-- The widget inputs of one render cycle of `main`: the sidebar
configuration, the Clear Chat button value, and the chat-input submission
(`none` when no question was submitted this cycle). -/
structure Input where
  cfg : Config
  clear : Bool
  question : Option String
deriving Repr

/-- The per-session state `st.session_state` (the parts the claims are
about): each field is `none` while the key is absent. -/
structure AppState where
  pinned_messages : Option (List Turn)
  messages : Option (List Turn)
  service_metadata : Option (List ServiceMeta)
deriving DecidableEq, Repr

/-- A fresh session: `st.session_state` holds none of the keys. -/
def initState : AppState := ⟨none, none, none⟩

/-- `init_service_metadata` (lines 37-45): discover the services once; on
later cycles the stored value is kept. -/
def metadataOf (env : Env) (s : AppState) : List ServiceMeta :=
  s.service_metadata.getD env.discover

/-- The pinned-messages part of `init_messages` (lines 32-33): initialize
to empty only when the key is absent. -/
def pinnedInit (s : AppState) : List Turn :=
  s.pinned_messages.getD []

/-- The messages part of `init_messages` (lines 34-35): reset to empty when
the Clear Chat button fired or the key is absent. -/
def messagesInit (i : Input) (s : AppState) : List Turn :=
  if i.clear || s.messages.isNone then [] else s.messages.getD []

/-- `disable_chat` (line 174): the chat input is disabled when no search
service was discovered. -/
def disable_chat (metadata : List ServiceMeta) : Bool :=
  metadata.isEmpty

/-- One render cycle of `main` (lines 152-181) restricted to its pure data
flow: initialize metadata, pinned messages and messages, then, when a
non-empty question is submitted while the chat input is enabled, append the
raw user turn, build the prompt from the quote-stripped question, and
append the assistant reply. -/
def renderCycle (env : Env) (i : Input) (s : AppState) : AppState :=
  let metadata := metadataOf env s
  let pinned := pinnedInit s
  let msgs := messagesInit i s
  match i.question with
  | none => ⟨some pinned, some msgs, some metadata⟩
  | some q =>
    if disable_chat metadata || q.isEmpty then ⟨some pinned, some msgs, some metadata⟩
    else
      let msgs1 := msgs ++ [⟨Role.user, q⟩]
      let prompt := build_prompt env i.cfg metadata msgs1 (stripQuotes q)
      let reply := complete env i.cfg.model_name prompt
      ⟨some pinned, some (msgs1 ++ [⟨Role.assistant, reply⟩]), some metadata⟩

/-- A whole session: fold the render cycles over a list of widget inputs,
starting from a fresh session. -/
def run (env : Env) (inps : List Input) : AppState :=
  inps.foldl (fun s i => renderCycle env i s) initState

/-! Concrete sample data used to instantiate the theorems below. -/

/-- A sample discovery result: one search service over a `chunk` column. -/
def sampleMeta : List ServiceMeta := [⟨"DOCS_SVC", "chunk"⟩]

/-- A sample environment whose completion backend always answers `"ok"` and
whose search backend returns no records. -/
def sampleEnv : Env :=
  { Complete := fun _ _ => "ok", search := fun _ _ => [], discover := sampleMeta }

/-- The default sidebar configuration of the app (widget defaults of
`init_config`). -/
def sampleCfg : Config :=
  { model_name := "mistral-large2", num_retrieved_chunks := 5, num_chat_messages := 5,
    use_chat_history := true, debug := false, dark_mode := false,
    selected_topic := "All Topics", selected_cortex_search_service := "DOCS_SVC" }

/-- The question containing a single-quote character from the spec
scenario, built by code point. -/
def qWhat : String := "What" ++ String.mk [squote] ++ "s OWASP?"

/-- A render-cycle input submitting `qWhat` with default configuration. -/
def inpQWhat : Input := ⟨sampleCfg, false, some qWhat⟩

/-- A render-cycle input submitting the question `"hi"`. -/
def inpHi : Input := ⟨sampleCfg, false, some "hi"⟩

/-- A render-cycle input where only the Clear Chat button fired. -/
def inpClear : Input := ⟨sampleCfg, true, none⟩

/-- An environment whose search-service discovery finds nothing. -/
def noSvcEnv : Env :=
  { Complete := fun _ _ => "ok", search := fun _ _ => [], discover := [] }

/-- An environment whose completion backend answers the empty string and
whose search backend returns no records; used to build a prompt whose only
content comes from the template holes. -/
def cEnv : Env :=
  { Complete := fun _ _ => "", search := fun _ _ => [], discover := sampleMeta }

/-- A transcript whose history window holds one assistant turn with a
marker content that appears nowhere else. -/
def cMsgs : List Turn := [⟨Role.assistant, "ZQV"⟩, ⟨Role.user, "tail"⟩]

/-- A sample transcript of three turns. -/
def wMsgs : List Turn := [⟨Role.user, "a"⟩, ⟨Role.assistant, "b"⟩, ⟨Role.user, "c"⟩]

/-- A search backend state holding eight matching records over the `chunk`
column. -/
def wRecords : List Rec' :=
  [[("chunk", "a1")], [("chunk", "a2")], [("chunk", "a3")], [("chunk", "a4")],
   [("chunk", "a5")], [("chunk", "a6")], [("chunk", "a7")], [("chunk", "a8")]]

/-- An environment whose search backend holds the eight `wRecords` matches
and honours the `limit` argument of the call. -/
def w5Env : Env :=
  { Complete := fun _ _ => "", search := fun _ call => wRecords.take call.limit,
    discover := sampleMeta }

/-- The spec description of the escaping transform of `complete`: every
dollar sign becomes backslash-dollar and every other character is kept
unchanged. -/
def escapedOncePerSigil (s : List Char) : List Char :=
  s.flatMap (fun c => if c = '$' then ['\\', '$'] else [c])

/-! Helper lemmas. -/

lemma pyReplace1_eq_flatMap (pat : Char) (rep : List Char) (l : List Char) :
    pyReplace1 pat rep l = l.flatMap (fun c => if c = pat then rep else [c]) := by
  induction l with
  | nil => rfl
  | cons c t ih => simp only [pyReplace1, List.flatMap_cons, ih]

lemma not_mem_pyReplace1_nil (c : Char) (l : List Char) : c ∉ pyReplace1 c [] l := by
  induction l with
  | nil => simp [pyReplace1]
  | cons d t ih =>
    by_cases hd : d = c
    · simpa [pyReplace1, hd] using ih
    · simp [pyReplace1, hd, ih, Ne.symm hd]

lemma get_chat_history_eq (msgs : List Turn) (n : Nat) (h : 1 ≤ n) :
    get_chat_history msgs n = (msgs.take (msgs.length - 1)).drop (msgs.length - n) := by
  unfold get_chat_history pySlice
  have ha : (-(n : Int)) < 0 := by omega
  have hb : (-1 : Int) < 0 := by omega
  simp only [if_pos ha, if_pos hb, Int.ofNat_eq_coe]
  have h1 : (max ((msgs.length : Int) + -(n : Int)) 0).toNat = msgs.length - n := by omega
  have h2 : (max ((msgs.length : Int) + -1) 0).toNat = msgs.length - 1 := by omega
  rw [h1, h2]

lemma enumFrom_map_getD (f : Nat × Rec' → String) :
    ∀ (rs : List Rec') (i : Nat),
      (rs.enumFrom i).map f
        = (List.range rs.length).map (fun j => f (i + j, rs.getD j [])) := by
  intro rs
  induction rs with
  | nil => intro i; rfl
  | cons r rs ih =>
    intro i
    simp only [List.enumFrom_cons, List.map_cons, List.length_cons,
      List.range_succ_eq_map, List.map_map, ih (i + 1)]
    refine congrArg₂ _ (by simp) ?_
    apply List.map_congr_left
    intro j hj
    simp only [Function.comp, Nat.succ_eq_add_one]
    have hij : i + 1 + j = i + (j + 1) := by omega
    rw [hij]
    simp

lemma getD_take_of_lt (l : List Rec') (k j : Nat) (h : j < k) :
    (l.take k).getD j [] = l.getD j [] := by
  simp [List.getD, List.getElem?_take, h]

lemma data_infix_parts (p1 p2 p3 p4 ct ctx q : String) :
    ct.data <:+: (p1 ++ ct ++ p2 ++ ctx ++ p3 ++ q ++ p4).data ∧
    ctx.data <:+: (p1 ++ ct ++ p2 ++ ctx ++ p3 ++ q ++ p4).data ∧
    q.data <:+: (p1 ++ ct ++ p2 ++ ctx ++ p3 ++ q ++ p4).data := by
  simp only [String.data_append]
  refine ⟨⟨p1.data, (p2 ++ ctx ++ p3 ++ q ++ p4).data, ?_⟩,
    ⟨(p1 ++ ct ++ p2).data, (p3 ++ q ++ p4).data, ?_⟩,
    ⟨(p1 ++ ct ++ p2 ++ ctx ++ p3).data, p4.data, ?_⟩⟩ <;>
    simp [String.data_append, List.append_assoc]

lemma messagesInit_of_not_clear (i : Input) (s : AppState) (h : i.clear = false) :
    messagesInit i s = s.messages.getD [] := by
  cases hm : s.messages <;> simp [messagesInit, h, hm]

lemma renderCycle_pinned (env : Env) (i : Input) (s : AppState) :
    (renderCycle env i s).pinned_messages = some (pinnedInit s) := by
  unfold renderCycle
  cases i.question with
  | none => rfl
  | some q => dsimp only; split <;> rfl

lemma renderCycle_metadata (env : Env) (i : Input) (s : AppState) :
    (renderCycle env i s).service_metadata = some (metadataOf env s) := by
  unfold renderCycle
  cases i.question with
  | none => rfl
  | some q => dsimp only; split <;> rfl

lemma step_extends (env : Env) (i : Input) (s : AppState) (h : i.clear = false) :
    (s.messages.getD []) <+: ((renderCycle env i s).messages.getD []) := by
  unfold renderCycle
  rw [← messagesInit_of_not_clear i s h]
  cases i.question with
  | none => exact List.prefix_rfl
  | some q =>
    dsimp only
    split
    · exact List.prefix_rfl
    · simp only [Option.getD_some]
      exact (List.prefix_append _ _).trans (List.prefix_append _ _)

lemma foldl_pinned_inv (env : Env) (inps : List Input) :
    ∀ (s : AppState), (s.pinned_messages = none ∨ s.pinned_messages = some []) →
      ((inps.foldl (fun t i => renderCycle env i t) s).pinned_messages = none ∨
       (inps.foldl (fun t i => renderCycle env i t) s).pinned_messages = some []) := by
  induction inps with
  | nil => intro s hs; exact hs
  | cons i rest ih =>
    intro s hs
    simp only [List.foldl_cons]
    apply ih
    right
    rw [renderCycle_pinned]
    rcases hs with h | h <;> simp [pinnedInit, h]

lemma foldl_no_service_inv (env : Env) (h : env.discover = []) (inps : List Input) :
    ∀ (s : AppState),
      (s.service_metadata = none ∨ s.service_metadata = some []) →
      s.messages.getD [] = [] →
      ((inps.foldl (fun t i => renderCycle env i t) s).service_metadata = none ∨
        (inps.foldl (fun t i => renderCycle env i t) s).service_metadata = some []) ∧
      (inps.foldl (fun t i => renderCycle env i t) s).messages.getD [] = [] := by
  induction inps with
  | nil => intro s h1 h2; exact ⟨h1, h2⟩
  | cons i rest ih =>
    intro s h1 h2
    simp only [List.foldl_cons]
    have hmd : metadataOf env s = [] := by
      rcases h1 with h1 | h1 <;> simp [metadataOf, h1, h]
    have hmsg : messagesInit i s = [] := by
      cases hm : s.messages
      · simp [messagesInit, hm]
      · cases hc : i.clear <;> simp_all [messagesInit, Option.getD]
    apply ih
    · right
      rw [renderCycle_metadata, hmd]
    · unfold renderCycle
      cases i.question with
      | none => simp [hmsg]
      | some q =>
        have hd : disable_chat (metadataOf env s) = true := by simp [disable_chat, hmd]
        simp [hd, hmsg]

/-! The claims. -/

/-- C1, counterexample: submitting the question containing a single quote
stores a user turn whose content is the raw question, which still contains
the single-quote character — the claim that the stored content has all
single quotes removed is false on the code (`main` appends `question`
unmodified at line 176; only the argument of `build_prompt` is stripped at
line 178). -/
theorem c1_counterexample :
    (((renderCycle sampleEnv inpQWhat initState).messages.getD []).getD 0 ⟨Role.assistant, ""⟩)
      = ⟨Role.user, qWhat⟩ ∧ squote ∈ qWhat.data := by
  constructor
  · decide
  · decide

/-- C1, amended: on a submitted non-empty question while the chat input is
enabled, the user turn appended to the conversation carries the raw
question unchanged, and the single-quote stripping applies only to the
question argument passed to the prompt builder, whose result contains no
single-quote character. -/
theorem c1_raw_turn_stripped_prompt (env : Env) (i : Input) (s : AppState) (q : String)
    (hq : i.question = some q) (hne : q.isEmpty = false)
    (hen : disable_chat (metadataOf env s) = false) :
    (renderCycle env i s).messages
      = some (messagesInit i s
          ++ [⟨Role.user, q⟩,
              ⟨Role.assistant,
                complete env i.cfg.model_name
                  (build_prompt env i.cfg (metadataOf env s)
                    (messagesInit i s ++ [⟨Role.user, q⟩]) (stripQuotes q))⟩]) ∧
    squote ∉ (stripQuotes q).data := by
  constructor
  · unfold renderCycle
    rw [hq]
    simp [hen, hne]
  · exact not_mem_pyReplace1_nil squote q.data

/-- C1, witness: the amended statement evaluated on the concrete
single-quote question scenario. -/
theorem c1_raw_turn_stripped_prompt_witness :
    (renderCycle sampleEnv inpQWhat initState).messages
      = some (messagesInit inpQWhat initState
          ++ [⟨Role.user, qWhat⟩,
              ⟨Role.assistant,
                complete sampleEnv inpQWhat.cfg.model_name
                  (build_prompt sampleEnv inpQWhat.cfg (metadataOf sampleEnv initState)
                    (messagesInit inpQWhat initState ++ [⟨Role.user, qWhat⟩])
                    (stripQuotes qWhat))⟩]) ∧
    squote ∉ (stripQuotes qWhat).data :=
  c1_raw_turn_stripped_prompt sampleEnv inpQWhat initState qWhat rfl rfl rfl

set_option maxRecDepth 40000

/-- C2, counterexample: with a history window holding one assistant turn
whose content is the marker `"ZQV"`, the full joined text of the windowed
turns (both roles) is `"ZQV"`, and it does not occur anywhere in the built
prompt — `build_prompt` joins only the user-role turns into the
chat-history hole (line 62), so the claim is false on the code. -/
theorem c2_counterexample :
    ¬ (String.intercalate "\n" ((chatWindow sampleCfg cMsgs).map Turn.content)).data
        <:+: (build_prompt cEnv sampleCfg sampleMeta cMsgs "tailq").data := by
  decide

/-- C2, amended: the built prompt contains, as contiguous segments, the
joined content of only the user-role turns of the history window, together
with the retrieved context for the rewritten query and the original
question passed to `build_prompt`. -/
theorem c2_prompt_sections (env : Env) (cfg : Config) (metadata : List ServiceMeta)
    (msgs : List Turn) (q : String) :
    (chatText cfg msgs).data <:+: (build_prompt env cfg metadata msgs q).data ∧
    (query_cortex env cfg metadata (retrievalQuery env cfg msgs q) [] []).data
      <:+: (build_prompt env cfg metadata msgs q).data ∧
    q.data <:+: (build_prompt env cfg metadata msgs q).data := by
  unfold build_prompt promptTemplate
  exact data_infix_parts _ _ _ _ _ _ _

/-- C3: for a window size n in [1,10], `get_chat_history` equals the spec
operation `windowed n` (the last n turns excluding the most recent one), it
is a suffix of the transcript with its most recent turn removed (so the
most recent turn is never included), and on transcripts of length at most
one it is empty. -/
theorem c3_history_window (msgs : List Turn) (n : Nat) (h1 : 1 ≤ n) (h2 : n ≤ 10) :
    get_chat_history msgs n = windowed n msgs ∧
    get_chat_history msgs n <:+ msgs.dropLast ∧
    (msgs.length ≤ 1 → get_chat_history msgs n = []) := by
  refine ⟨?_, ?_, ?_⟩
  · rw [get_chat_history_eq msgs n h1]
    unfold windowed
    rw [List.dropLast_eq_take, List.length_drop, List.drop_take]
    congr 1
    omega
  · rw [get_chat_history_eq msgs n h1, List.dropLast_eq_take]
    exact List.drop_suffix _ _
  · intro hl
    rw [get_chat_history_eq msgs n h1]
    have hz : msgs.length - 1 = 0 := by omega
    simp [hz]

/-- C3, witness: the window of size 2 on a three-turn transcript. -/
theorem c3_history_window_witness :
    get_chat_history wMsgs 2 = windowed 2 wMsgs ∧
    get_chat_history wMsgs 2 <:+ wMsgs.dropLast ∧
    (wMsgs.length ≤ 1 → get_chat_history wMsgs 2 = []) :=
  c3_history_window wMsgs 2 (by decide) (by decide)

/-- C4: the output of `complete` is the backend text with every dollar sign
escaped exactly once — each dollar becomes backslash-dollar and every other
character is kept unchanged, as expressed by `escapedOncePerSigil`. -/
theorem c4_complete_escapes_dollars (env : Env) (model prompt : String) :
    (complete env model prompt).data = escapedOncePerSigil (env.Complete model prompt).data := by
  unfold complete escapedOncePerSigil
  exact pyReplace1_eq_flatMap _ _ _

/-- C5: when the search backend holds a list of matches and honours the
limit of the call, `query_cortex` assembles exactly
`min num_retrieved_chunks matches` snippet blocks, labeled consecutively
from `"Context 1"`, in backend order, each holding that record's
search-column text. -/
theorem c5_context_blocks (env : Env) (cfg : Config) (metadata : List ServiceMeta) (q : String)
    (allMatches : List Rec')
    (hs : ∀ svc call, env.search svc call = allMatches.take call.limit) :
    query_cortex env cfg metadata q [] []
      = String.intercalate "\n\n"
          ((List.range (min cfg.num_retrieved_chunks allMatches.length)).map
            (fun i => "Context " ++ toString (i + 1) ++ ": "
              ++ getCol (allMatches.getD i []) (searchColOf metadata cfg))) := by
  simp only [query_cortex, contextBlocks, hs]
  congr 1
  have he : (allMatches.take (query_cortex_call cfg q [] []).limit).enum
      = (allMatches.take (query_cortex_call cfg q [] []).limit).enumFrom 0 := rfl
  rw [he, enumFrom_map_getD, List.length_take]
  have hlim : (query_cortex_call cfg q [] []).limit = cfg.num_retrieved_chunks := rfl
  rw [hlim]
  apply List.map_congr_left
  intro j hj
  rw [List.mem_range] at hj
  rw [getD_take_of_lt _ _ _ (lt_of_lt_of_le hj (min_le_left _ _))]
  simp

/-- C5, witness: with `num_retrieved_chunks = 5` and a backend holding
eight matches, the context holds exactly the five blocks
`"Context 1"` to `"Context 5"` in backend order. -/
theorem c5_context_blocks_witness :
    query_cortex w5Env sampleCfg sampleMeta "q" [] []
      = "Context 1: a1\n\nContext 2: a2\n\nContext 3: a3\n\nContext 4: a4\n\nContext 5: a5" :=
  (c5_context_blocks w5Env sampleCfg sampleMeta "q" wRecords (fun _ _ => rfl)).trans (by decide)

/-- C6: on the render cycle triggered by the Clear Chat button (no
simultaneous question submission), the conversation becomes empty,
whatever its prior length, and the pinned-messages sequence is empty: it is
initialized empty once and nothing in the interaction loop ever adds to
it. -/
theorem c6_clear_resets (env : Env) (inps : List Input) (i : Input)
    (hc : i.clear = true) (hq : i.question = none) :
    (renderCycle env i (run env inps)).messages = some [] ∧
    (renderCycle env i (run env inps)).pinned_messages = some [] := by
  constructor
  · unfold renderCycle
    rw [hq]
    simp [messagesInit, hc]
  · rw [renderCycle_pinned]
    have hp := foldl_pinned_inv env inps initState (Or.inl rfl)
    unfold run
    rcases hp with h | h <;> simp_all [pinnedInit, run]

/-- C6, witness: clearing after one answered question empties the
conversation and the pinned messages. -/
theorem c6_clear_resets_witness :
    (renderCycle sampleEnv inpClear (run sampleEnv [inpHi])).messages = some [] ∧
    (renderCycle sampleEnv inpClear (run sampleEnv [inpHi])).pinned_messages = some [] :=
  c6_clear_resets sampleEnv [inpHi] inpClear rfl rfl

/-- C7: over any sequence of render cycles in which the Clear Chat button
never fires, the prior conversation is a prefix of the resulting one — so
its length never decreases and every already-present turn keeps its
content, role and position; the only mutations are appends at the end. -/
theorem c7_append_only (env : Env) (s : AppState) (inps : List Input)
    (h : ∀ i ∈ inps, i.clear = false) :
    (s.messages.getD []) <+: ((inps.foldl (fun t i => renderCycle env i t) s).messages.getD []) ∧
    (s.messages.getD []).length
      ≤ ((inps.foldl (fun t i => renderCycle env i t) s).messages.getD []).length := by
  have hp : (s.messages.getD [])
      <+: ((inps.foldl (fun t i => renderCycle env i t) s).messages.getD []) := by
    induction inps generalizing s with
    | nil => exact List.prefix_rfl
    | cons i rest ih =>
      simp only [List.foldl_cons]
      exact (step_extends env i s (h i (by simp))).trans
        (ih (renderCycle env i s) (fun j hj => h j (by simp [hj])))
  exact ⟨hp, hp.length_le⟩

/-- C7, witness: one question-answer cycle extends the empty conversation
without rewriting it. -/
theorem c7_append_only_witness :
    (initState.messages.getD [])
      <+: (([inpHi].foldl (fun t i => renderCycle sampleEnv i t) initState).messages.getD []) ∧
    (initState.messages.getD []).length
      ≤ (([inpHi].foldl (fun t i => renderCycle sampleEnv i t) initState).messages.getD []).length :=
  c7_append_only sampleEnv initState [inpHi] (by decide)

/-- C8: when the discovered search-service list is empty, the chat input is
disabled in every reachable state and the conversation stays empty forever:
no turn is ever appended. -/
theorem c8_no_service_no_turns (env : Env) (inps : List Input) (h : env.discover = []) :
    disable_chat (metadataOf env (run env inps)) = true ∧
    (run env inps).messages.getD [] = [] := by
  unfold run
  have hi := foldl_no_service_inv env h inps initState (Or.inl rfl) rfl
  refine ⟨?_, hi.2⟩
  rcases hi.1 with h1 | h1 <;> simp [disable_chat, metadataOf, h1, h]

/-- C8, witness: with no discovered service, even a submitted question
leaves the conversation empty and the input disabled. -/
theorem c8_no_service_no_turns_witness :
    disable_chat (metadataOf noSvcEnv (run noSvcEnv [inpHi])) = true ∧
    (run noSvcEnv [inpHi]).messages.getD [] = [] :=
  c8_no_service_no_turns noSvcEnv [inpHi] rfl

/-- C9: the selected topic filter is decorative — the search call (whose
filter argument is the empty filter at the only call site), the retrieved
context, the built prompt and the whole render-cycle result are identical
for any two values of `selected_topic`, everything else equal. -/
theorem c9_topic_decorative (env : Env) (cfg : Config) (metadata : List ServiceMeta)
    (msgs : List Turn) (q : String) (columns : List String) (fil : List (String × String))
    (i : Input) (s : AppState) (t u : String) :
    query_cortex_call { cfg with selected_topic := t } q columns fil
      = query_cortex_call { cfg with selected_topic := u } q columns fil ∧
    (query_cortex_call cfg q [] []).filter = [] ∧
    query_cortex env { cfg with selected_topic := t } metadata q columns fil
      = query_cortex env { cfg with selected_topic := u } metadata q columns fil ∧
    build_prompt env { cfg with selected_topic := t } metadata msgs q
      = build_prompt env { cfg with selected_topic := u } metadata msgs q ∧
    renderCycle env { i with cfg := { i.cfg with selected_topic := t } } s
      = renderCycle env { i with cfg := { i.cfg with selected_topic := u } } s :=
  ⟨rfl, rfl, rfl, rfl, rfl⟩

/-- C10: the debug toggle does not affect retrieval — `query_cortex`
returns the identical context for both values of the flag, the prompt and
the render-cycle result are likewise identical, and the only effect of the
flag is the operator-visible sidebar display of the context. -/
theorem c10_debug_decorative (env : Env) (cfg : Config) (metadata : List ServiceMeta)
    (msgs : List Turn) (q : String) (columns : List String) (fil : List (String × String))
    (i : Input) (s : AppState) (b1 b2 : Bool) :
    query_cortex env { cfg with debug := b1 } metadata q columns fil
      = query_cortex env { cfg with debug := b2 } metadata q columns fil ∧
    query_cortex_debug env { cfg with debug := true } metadata q columns fil
      = some (query_cortex env cfg metadata q columns fil) ∧
    query_cortex_debug env { cfg with debug := false } metadata q columns fil = none ∧
    build_prompt env { cfg with debug := b1 } metadata msgs q
      = build_prompt env { cfg with debug := b2 } metadata msgs q ∧
    renderCycle env { i with cfg := { i.cfg with debug := b1 } } s
      = renderCycle env { i with cfg := { i.cfg with debug := b2 } } s :=
  ⟨rfl, rfl, rfl, rfl, rfl⟩
